import Mathlib

/-!
Shallow embedding of the flashback support-desk backend core
(conversation resolver, message-ingestion pipeline, outbound dispatcher,
bot lifecycle manager) and proofs about it.

Sources embedded:
  - src/backend/src/models/conversation.rs
  - src/backend/src/models/message.rs
  - src/backend/src/models/telegram_user.rs
  - src/backend/src/websocket/events.rs
  - src/backend/src/l10n.rs
  - src/backend/src/telegram/handlers.rs
  - src/backend/src/telegram/bot_manager.rs
  - src/backend/src/api/handlers/messages.rs
  - src/backend/src/api/handlers/conversations.rs

Conventions: `Uuid` values are modelled as `Nat` (freshly generated ids are
passed in explicitly since `Uuid::new_v4()` is nondeterministic), timestamps
(`DateTime<Utc>`) as `Nat`, `i64`/`i32` as `Int`.  The storehaus persistence
collaborator is modelled as in-memory lists: `create` appends, `update`
replaces by primary key, `get_by_id`/`find_one` scan in insertion order.
Fallible store calls are modelled by explicit fault flags injected into each
operation; a lookup fault takes the same branch as the source's `Err(_)` arm.
-/

namespace Flashback

/-- Conversation status (models `ConversationStatus` in models/conversation.rs). -/
inductive ConversationStatus
  | waiting
  | active
  | closed
deriving DecidableEq, Repr

/-- `ConversationStatus::as_str` in models/conversation.rs. -/
def ConversationStatus.asStr : ConversationStatus → String
  | .waiting => "waiting"
  | .active => "active"
  | .closed => "closed"

/-- Conversation row (models `Conversation` in models/conversation.rs). -/
structure Conversation where
  id : Nat
  telegramUserId : Int
  userId : Option Nat
  status : ConversationStatus
  lastMessageAt : Option Nat
  unreadCount : Int
deriving DecidableEq, Repr

/-- The generated `Conversation::new` constructor (field order as in the model). -/
def Conversation.new (id : Nat) (telegramUserId : Int) (userId : Option Nat)
    (status : ConversationStatus) (lastMessageAt : Option Nat) (unreadCount : Int) :
    Conversation :=
  ⟨id, telegramUserId, userId, status, lastMessageAt, unreadCount⟩

/-- Telegram user row (models `TelegramUser` in models/telegram_user.rs). -/
structure TelegramUser where
  id : Int
  username : Option String
  firstName : String
  lastName : Option String
  photoUrl : Option String
  countryCode : Option String
  isBlocked : Bool
deriving DecidableEq, Repr

/-- The generated `TelegramUser::new` constructor. -/
def TelegramUser.new (id : Int) (username : Option String) (firstName : String)
    (lastName : Option String) (photoUrl : Option String)
    (countryCode : Option String) (isBlocked : Bool) : TelegramUser :=
  ⟨id, username, firstName, lastName, photoUrl, countryCode, isBlocked⟩

/-- `TelegramUser::full_name` in models/telegram_user.rs. -/
def TelegramUser.fullName (u : TelegramUser) : String :=
  match u.lastName with
  | some last => u.firstName ++ " " ++ last
  | none => u.firstName

/-- Message row (models `Message` in models/message.rs). -/
structure Message where
  id : Nat
  conversationId : Nat
  fromUser : Bool
  content : String
  read : Bool
  telegramMessageId : Option Int
  mediaType : Option String
  mediaUrl : Option String
  fileName : Option String
  fileSize : Option Int
  mimeType : Option String
  duration : Option Int
deriving DecidableEq, Repr

/-- `Message::from_telegram_user` (text-only sender message): from_user = false,
read = false, telegram message id recorded, no media. -/
def Message.fromTelegramUser (id : Nat) (conversationId : Nat) (content : String)
    (telegramMessageId : Int) : Message :=
  ⟨id, conversationId, false, content, false, some telegramMessageId,
    none, none, none, none, none, none⟩

/-- `Message::from_telegram_user_with_full_media`. -/
def Message.fromTelegramUserWithFullMedia (id : Nat) (conversationId : Nat)
    (content : String) (telegramMessageId : Int) (mediaType : String)
    (mediaUrl : String) (fileName : Option String) (fileSize : Option Int)
    (mimeType : Option String) (duration : Option Int) : Message :=
  ⟨id, conversationId, false, content, false, some telegramMessageId,
    some mediaType, some mediaUrl, fileName, fileSize, mimeType, duration⟩

/-- `Message::from_user_message` (operator-authored): from_user = true and
read = true by default, no transport id yet, no media. -/
def Message.fromUserMessage (id : Nat) (conversationId : Nat) (content : String) :
    Message :=
  ⟨id, conversationId, true, content, true, none,
    none, none, none, none, none, none⟩

/-- WebSocket fan-out events (models `WebSocketEvent` in websocket/events.rs;
only the variants emitted by the embedded core are listed). -/
inductive WsEvent
  | messageReceived (conversationId : Nat) (messageId : Nat) (content : String)
      (telegramUserId : Int) (telegramUserName : String)
      (mediaType : Option String) (mediaUrl : Option String)
      (fileName : Option String) (fileSize : Option Int)
      (mimeType : Option String) (duration : Option Int)
  | messageSent (conversationId : Nat) (messageId : Nat) (content : String)
      (userId : Nat) (userName : String)
      (mediaType : Option String) (mediaUrl : Option String)
      (fileName : Option String) (fileSize : Option Int)
      (mimeType : Option String) (duration : Option Int)
  | conversationCreated (conversationId : Nat) (telegramUserId : Int)
      (telegramUserName : String)
  | conversationStatusChanged (conversationId : Nat) (status : String)
      (userId : Option Nat)
  | conversationAssigned (conversationId : Nat) (userId : Nat) (userName : String)
  | conversationClosed (conversationId : Nat)
  | messageRead (messageId : Nat) (conversationId : Nat)
  | error (message : String) (code : String)
  | botStatus (status : String)
deriving DecidableEq, Repr

/-- Is the event a `ConversationCreated` event? -/
def WsEvent.isConversationCreated : WsEvent → Bool
  | .conversationCreated _ _ _ => true
  | _ => false

/-- Is the event a `MessageSent` event? -/
def WsEvent.isMessageSent : WsEvent → Bool
  | .messageSent _ _ _ _ _ _ _ _ _ _ _ => true
  | _ => false

/-- Is the event a `MessageReceived` event? -/
def WsEvent.isMessageReceived : WsEvent → Bool
  | .messageReceived _ _ _ _ _ _ _ _ _ _ _ => true
  | _ => false

/-- Localized bot reply bundle (models `BotMessages` in l10n.rs). -/
structure BotMessages where
  welcome : String
  operatorAssigned : String
  conversationClosed : String
  operatorTyping : String
  messageSent : String
  error : String
deriving DecidableEq, Repr

/-- Locale bundle (models `LocaleData` in l10n.rs). -/
structure LocaleData where
  bot : BotMessages
deriving DecidableEq, Repr

/-- Modelled from the spec: the locale bundle files
`locales/backend/en.json` / `locales/backend/ru.json` loaded by the `LOCALES`
table in l10n.rs are not under src/; the spec says only that senders receive
"fixed, localized plain-text messages, never raw error detail", so the bundle
contents are abstracted as fixed placeholder texts. -/
def enLocale : LocaleData :=
  ⟨⟨"EN welcome", "EN operator assigned", "EN conversation closed",
    "EN operator typing", "EN message sent", "EN error"⟩⟩

/-- Modelled from the spec: Russian locale bundle, see `enLocale`. -/
def ruLocale : LocaleData :=
  ⟨⟨"RU welcome", "RU operator assigned", "RU conversation closed",
    "RU operator typing", "RU message sent", "RU error"⟩⟩

/-- `get_locale` in l10n.rs: country code "RU" selects the Russian bundle,
anything else (or none) the English one. -/
def getLocale (countryCode : Option String) : LocaleData :=
  if countryCode = some "RU" then ruLocale else enLocale

/-! ## Inbound Telegram update (teloxide `Message` as used by handlers.rs) -/

/-- One photo size entry (`PhotoSize`): file id and size. -/
structure TgPhotoSize where
  fileId : String
  fileSize : Int
deriving DecidableEq, Repr

/-- Document attachment as read by handlers.rs. -/
structure TgDocument where
  fileId : String
  fileName : Option String
  fileSize : Int
  mimeType : Option String
deriving DecidableEq, Repr

/-- Video attachment as read by handlers.rs. -/
structure TgVideo where
  fileId : String
  fileSize : Int
  mimeType : Option String
  duration : Int
deriving DecidableEq, Repr

/-- Voice attachment as read by handlers.rs. -/
structure TgVoice where
  fileId : String
  fileSize : Int
  mimeType : Option String
  duration : Int
deriving DecidableEq, Repr

/-- Audio attachment as read by handlers.rs. -/
structure TgAudio where
  fileId : String
  fileName : Option String
  fileSize : Int
  mimeType : Option String
  duration : Int
deriving DecidableEq, Repr

/-- Sticker attachment as read by handlers.rs. -/
structure TgSticker where
  fileId : String
  fileSize : Int
  emoji : Option String
deriving DecidableEq, Repr

/-- Animation (GIF) attachment as read by handlers.rs. -/
structure TgAnimation where
  fileId : String
  fileName : Option String
  fileSize : Int
  mimeType : Option String
  duration : Int
deriving DecidableEq, Repr

/-- The `msg.from` user of an inbound update (teloxide `User` fields used by
handlers.rs). -/
structure TgFrom where
  id : Int
  username : Option String
  firstName : String
  lastName : Option String
  languageCode : Option String
deriving DecidableEq, Repr

/-- Inbound Telegram update (the teloxide `Message` accessors used by
`process_user_message`; each media accessor yields `Option`). -/
structure TgMessage where
  messageId : Int
  chatId : Int
  sender : Option TgFrom
  text : Option String
  caption : Option String
  photo : Option (List TgPhotoSize)
  document : Option TgDocument
  video : Option TgVideo
  voice : Option TgVoice
  audio : Option TgAudio
  sticker : Option TgSticker
  animation : Option TgAnimation
deriving DecidableEq, Repr

/-- Outcome of the media-classification / content-extraction `if`-chain at the
top of `process_user_message` (handlers.rs lines 72-154). -/
inductive ExtractOutcome
  /-- Fell through to a `(text, media…)` tuple and the pipeline continues. -/
  | content (text : String) (mediaType : Option String) (mediaUrl : Option String)
      (fileName : Option String) (fileSize : Option Int)
      (mimeType : Option String) (duration : Option Int)
  /-- Empty text: replies "Please, send text massage or media." and stops. -/
  | emptyText
  /-- Unsupported kind: replies "The message with this type is not supported
  yet." and stops. -/
  | unsupported
  /-- `photo.last()` was `None`: `anyhow` error propagates. -/
  | noPhoto
deriving DecidableEq, Repr

/-- The classification / extraction `if`-chain of `process_user_message`,
in source order: photo, document, video, voice, audio, sticker, animation,
text, otherwise unsupported. -/
def extractContent (msg : TgMessage) : ExtractOutcome :=
  match msg.photo with
  | some photo =>
    let caption := msg.caption.getD ""
    match photo.getLast? with
    | none => .noPhoto
    | some largestPhoto =>
      .content caption (some "photo") (some largestPhoto.fileId)
        none (some largestPhoto.fileSize) none none
  | none =>
  match msg.document with
  | some document =>
    .content (msg.caption.getD "Document") (some "document") (some document.fileId)
      document.fileName (some document.fileSize) document.mimeType none
  | none =>
  match msg.video with
  | some video =>
    .content (msg.caption.getD "Video") (some "video") (some video.fileId)
      none (some video.fileSize) video.mimeType (some video.duration)
  | none =>
  match msg.voice with
  | some voice =>
    .content "Voice message" (some "voice") (some voice.fileId)
      none (some voice.fileSize) voice.mimeType (some voice.duration)
  | none =>
  match msg.audio with
  | some audio =>
    .content (msg.caption.getD "Audio") (some "audio") (some audio.fileId)
      audio.fileName (some audio.fileSize) audio.mimeType (some audio.duration)
  | none =>
  match msg.sticker with
  | some sticker =>
    .content ("Sticker " ++ sticker.emoji.getD "") (some "sticker")
      (some sticker.fileId) none (some sticker.fileSize) none none
  | none =>
  match msg.animation with
  | some animation =>
    .content (msg.caption.getD "Animation") (some "animation")
      (some animation.fileId) animation.fileName (some animation.fileSize)
      animation.mimeType (some animation.duration)
  | none =>
  match msg.text with
  | some text => if text = "" then .emptyText else
      .content text none none none none none none
  | none => .unsupported

/-- Country-code derivation from the update's `language_code`
(handlers.rs lines 162-170): "en-US" → "US", "ru" → "RU". -/
def extractCountryCode (languageCode : Option String) : Option String :=
  languageCode.bind fun lang =>
    if lang.contains '-' then
      ((lang.splitOn "-").get? 1).map String.toUpper
    else
      some lang.toUpper

/-! ## Persistence collaborator (storehaus `GenericStore` as in-memory lists) -/

/-- The three stores touched by the core pipeline. -/
structure DbState where
  users : List TelegramUser
  convs : List Conversation
  msgs : List Message
deriving DecidableEq, Repr

/-- `get_by_id` on the telegram-user store (primary key `id`). -/
def findUserById (users : List TelegramUser) (id : Int) : Option TelegramUser :=
  users.find? (fun u => u.id == id)

/-- `update` on the telegram-user store: replace the row with the given key. -/
def updateUserById (users : List TelegramUser) (id : Int) (u : TelegramUser) :
    List TelegramUser :=
  users.map (fun v => if v.id == id then u else v)

/-- Is a conversation in one of the two open statuses? -/
def Conversation.isOpen (c : Conversation) : Bool :=
  c.status == .waiting || c.status == .active

/-- The resolver's lookup (handlers.rs lines 216-221): `find_one` over
conversations filtered by `telegram_user_id` and
`status ∈ {waiting, active}`, first match in store order. -/
def findOpenConversation (convs : List Conversation) (telegramUserId : Int) :
    Option Conversation :=
  convs.find? (fun c => c.telegramUserId == telegramUserId && c.isOpen)

/-- `get_by_id` on the conversation store. -/
def findConvById (convs : List Conversation) (id : Nat) : Option Conversation :=
  convs.find? (fun c => c.id == id)

/-- `update` on the conversation store: replace the row with the given key. -/
def updateConvById (convs : List Conversation) (id : Nat) (c : Conversation) :
    List Conversation :=
  convs.map (fun v => if v.id == id then c else v)

/-! ## Message-ingestion pipeline (`process_user_message`, handlers.rs) -/

/-- Fault flags for the fallible store calls inside one ingestion run.  A
lookup fault makes `get_by_id`/`find_one` return the source's `Err(_)` arm;
a create/update fault makes the corresponding `create`/`update` call fail
(the `?` operator then propagates the error). -/
structure IngestFaults where
  userLookupErr : Bool
  userCreateErr : Bool
  convLookupErr : Bool
  convCreateErr : Bool
  msgCreateErr : Bool
  convUpdateErr : Bool
deriving DecidableEq, Repr

/-- All store calls succeed. -/
def noFaults : IngestFaults := ⟨false, false, false, false, false, false⟩

/-- Observable outcome of one `process_user_message` run. -/
structure IngestResult where
  /-- Store contents afterwards. -/
  db : DbState
  /-- Events broadcast over the WebSocket fan-out, in order. -/
  events : List WsEvent
  /-- Texts sent back to the sender's chat, in order. -/
  replies : List String
  /-- Whether the per-operator new-conversation notification batch ran
  (`send_new_conversation_notifications_to_users`; its individual sends are
  best-effort and swallowed). -/
  opNotified : Bool
  /-- `some e` models `process_user_message` returning `Err(e)`. -/
  procErr : Option String
deriving DecidableEq, Repr

/-- The conversation resolver (handlers.rs lines 216-241): look up an open
(waiting/active) conversation and reuse it, otherwise create one with status
waiting, last-activity now and unread 0.  `Ok(None)` and `Err(_)` from the
lookup both fall into the create branch; a create error propagates (`none`
here).  Returns the resolved conversation, whether it is newly created, and
the conversation store afterwards. -/
def resolveConversation (convs : List Conversation) (telegramUserId : Int)
    (freshConvId : Nat) (now : Nat) (lookupErr createErr : Bool) :
    Option (Conversation × Bool × List Conversation) :=
  let lookup : Option Conversation :=
    if lookupErr then none else findOpenConversation convs telegramUserId
  match lookup with
  | some conv => some (conv, false, convs)
  | none =>
    if createErr then none
    else
      let newConv := Conversation.new freshConvId telegramUserId none
        .waiting (some now) 0
      some (newConv, true, convs ++ [newConv])

/-- Tail of `process_user_message` once a conversation is resolved
(`conversation`, `isNewConversation`, `convs` being the resolver's output):
new-conversation side effects (`ConversationCreated` broadcast and operator
notification batch, both before the message is saved), message save,
conversation update, welcome reply for new conversations, and the
`MessageReceived` broadcast. -/
def ingestWithConversation (db : DbState) (msg : TgMessage)
    (telegramUser : TelegramUser) (locale : LocaleData) (text : String)
    (mediaType mediaUrl fileName : Option String) (fileSize : Option Int)
    (mimeType : Option String) (duration : Option Int) (freshMsgId : Nat)
    (now : Nat) (faults : IngestFaults) (conversation : Conversation)
    (isNewConversation : Bool) (convs : List Conversation) : IngestResult :=
  let events :=
    if isNewConversation then
      [WsEvent.conversationCreated conversation.id telegramUser.id
        telegramUser.fullName]
    else []
  let opNotified := isNewConversation
  -- Save message.
  let message :=
    match mediaType, mediaUrl with
    | some mt, some mu =>
      Message.fromTelegramUserWithFullMedia freshMsgId conversation.id text
        msg.messageId mt mu fileName fileSize mimeType duration
    | _, _ => Message.fromTelegramUser freshMsgId conversation.id text msg.messageId
  if faults.msgCreateErr then
    { db := { db with convs := convs }, events := events, replies := [],
      opNotified := opNotified, procErr := some "message create failed" }
  else
    let msgs := db.msgs ++ [message]
    -- Update conversation: last_message_at = now, unread_count += 1.
    let updatedConv :=
      { conversation with lastMessageAt := some now,
                          unreadCount := conversation.unreadCount + 1 }
    if faults.convUpdateErr then
      { db := { db with convs := convs, msgs := msgs },
        events := events, replies := [], opNotified := opNotified,
        procErr := some "conversation update failed" }
    else
      let convs := updateConvById convs conversation.id updatedConv
      -- Acknowledgment only for new conversations.
      let replies := if isNewConversation then [locale.bot.welcome] else []
      let telegramUserName :=
        ((telegramUser.username).orElse (fun _ => some telegramUser.firstName)).getD
          ("User " ++ toString telegramUser.id)
      let events := events ++
        [WsEvent.messageReceived conversation.id message.id text
          telegramUser.id telegramUserName message.mediaType message.mediaUrl
          message.fileName message.fileSize message.mimeType message.duration]
      { db := { users := db.users, convs := convs, msgs := msgs },
        events := events, replies := replies, opNotified := opNotified,
        procErr := none }

/-- Stage of `process_user_message` from conversation resolution (line 210)
to the end: resolver, then `ingestWithConversation`. -/
def ingestConvPhase (db : DbState) (msg : TgMessage) (telegramUser : TelegramUser)
    (locale : LocaleData) (text : String) (mediaType mediaUrl fileName : Option String)
    (fileSize : Option Int) (mimeType : Option String) (duration : Option Int)
    (freshConvId freshMsgId : Nat) (now : Nat) (faults : IngestFaults) :
    IngestResult :=
  match resolveConversation db.convs telegramUser.id freshConvId now
      faults.convLookupErr faults.convCreateErr with
  | none =>
    { db := db, events := [], replies := [], opNotified := false,
      procErr := some "conversation create failed" }
  | some (conversation, isNewConversation, convs) =>
    ingestWithConversation db msg telegramUser locale text mediaType mediaUrl
      fileName fileSize mimeType duration freshMsgId now faults conversation
      isNewConversation convs

/-- `process_user_message` (handlers.rs lines 68-341).  `fetchedPhotoUrl` is
the URL produced by the best-effort `update_user_profile_photo` step when it
finds one (`none` models both "no photo" and any swallowed transport
failure). -/
def processUserMessage (db : DbState) (msg : TgMessage)
    (fetchedPhotoUrl : Option String) (freshConvId freshMsgId : Nat) (now : Nat)
    (faults : IngestFaults) : IngestResult :=
  match msg.sender with
  | none =>
    { db := db, events := [], replies := [], opNotified := false,
      procErr := some "No user in message" }
  | some user =>
  match extractContent msg with
  | .emptyText =>
    { db := db, events := [], replies := ["Please, send text massage or media."],
      opNotified := false, procErr := none }
  | .unsupported =>
    { db := db, events := [],
      replies := ["The message with this type is not supported yet."],
      opNotified := false, procErr := none }
  | .noPhoto =>
    { db := db, events := [], replies := [], opNotified := false,
      procErr := some "No photo in message" }
  | .content text mediaType mediaUrl fileName fileSize mimeType duration =>
    let countryCode := extractCountryCode user.languageCode
    -- Get or create Telegram user; `Ok(None)` and `Err(_)` both create.
    let lookup : Option TelegramUser :=
      if faults.userLookupErr then none else findUserById db.users user.id
    let created : Option (TelegramUser × List TelegramUser) :=
      match lookup with
      | some u => some (u, db.users)
      | none =>
        if faults.userCreateErr then none
        else
          let newUser := TelegramUser.new user.id user.username user.firstName
            user.lastName none countryCode false
          some (newUser, db.users ++ [newUser])
    match created with
    | none =>
      { db := db, events := [], replies := [], opNotified := false,
        procErr := some "user create failed" }
    | some (telegramUser, users) =>
      -- Best-effort profile-photo fetch: re-reads the stored row and updates
      -- its photo_url; every failure inside is logged and swallowed.
      let users :=
        if telegramUser.photoUrl.isNone then
          match fetchedPhotoUrl with
          | some url =>
            match findUserById users telegramUser.id with
            | some stored =>
              updateUserById users telegramUser.id { stored with photoUrl := some url }
            | none => users
          | none => users
        else users
      let locale := getLocale telegramUser.countryCode
      let db := { db with users := users }
      -- Blocked sender: fixed localized error reply, then stop.
      if telegramUser.isBlocked then
        { db := db, events := [], replies := [locale.bot.error],
          opNotified := false, procErr := none }
      else
        ingestConvPhase db msg telegramUser locale text mediaType mediaUrl
          fileName fileSize mimeType duration freshConvId freshMsgId now faults

/-- `handle_message` (handlers.rs lines 29-65) for non-command updates: runs
`process_user_message` and, if it failed, sends the fixed apology text back to
the sender's chat. -/
def handleMessage (db : DbState) (msg : TgMessage) (fetchedPhotoUrl : Option String)
    (freshConvId freshMsgId : Nat) (now : Nat) (faults : IngestFaults) :
    IngestResult :=
  let r := processUserMessage db msg fetchedPhotoUrl freshConvId freshMsgId now faults
  match r.procErr with
  | some _ =>
    { r with replies := r.replies ++
        ["There was an error processing your message. Please try again later."] }
  | none => r

/-! ## Outbound dispatcher (`send_message_to_telegram_user` in handlers.rs and
`send_message` in api/handlers/messages.rs) -/

/-- Telegram API error kinds distinguished by `send_message_to_telegram_user`. -/
inductive TgApiError
  | botBlocked
  | userDeactivated
  | chatNotFound
  | other (s : String)
deriving DecidableEq, Repr

/-- teloxide `RequestError` as matched by `send_message_to_telegram_user`. -/
inductive TgRequestError
  | api (e : TgApiError)
  | network (s : String)
deriving DecidableEq, Repr

/-- Raw outcome of the transport `bot.send_message` call. -/
inductive TgSendOutcome
  | sent (telegramMessageId : Int)
  | failed (e : TgRequestError)
deriving DecidableEq, Repr

/-- `SendMessageResult` in handlers.rs. -/
inductive SendMessageResult
  | success (telegramMessageId : Int)
  | userBlocked
  | error (s : String)
deriving DecidableEq, Repr

/-- `send_message_to_telegram_user` (handlers.rs lines 344-377): classifies
the transport outcome; bot-blocked, user-deactivated and chat-not-found all
collapse to `userBlocked`. -/
def sendMessageToTelegramUser (outcome : TgSendOutcome) : SendMessageResult :=
  match outcome with
  | .sent id => .success id
  | .failed (.api .botBlocked) => .userBlocked
  | .failed (.api .userDeactivated) => .userBlocked
  | .failed (.api .chatNotFound) => .userBlocked
  | .failed (.api (.other s)) => .error ("API error: " ++ s)
  | .failed (.network s) => .error s

/-- API error kinds (models `AppError` in errors/api_error.rs as used by the
embedded handlers). -/
inductive AppError
  | notFound (s : String)
  | badRequest (s : String)
  | forbidden (s : String)
  | internal (s : String)
  | database (s : String)
deriving DecidableEq, Repr

/-- Handler outcome: `ok` carries the stored message returned as the response
body. -/
inductive ApiOutcome
  | ok (m : Message)
  | err (e : AppError)
deriving DecidableEq, Repr

/-- Fault flags for the store calls inside one `send_message` run. -/
structure SendFaults where
  msgCreateErr : Bool
  convUpdateErr : Bool
  userLookupErr : Bool
  userUpdateErr : Bool
deriving DecidableEq, Repr

/-- All dispatcher store calls succeed. -/
def noSendFaults : SendFaults := ⟨false, false, false, false⟩

/-- Observable outcome of one `POST /api/messages/send` run. -/
structure SendMessageOutput where
  db : DbState
  events : List WsEvent
  /-- Texts actually delivered to the sender by the transport (nonempty only
  when the transport accepted the send). -/
  delivered : List String
  result : ApiOutcome
deriving DecidableEq, Repr

/-- `send_message` (api/handlers/messages.rs lines 103-220): the operator-reply
dispatch handler.  `botConnected` models `bot_manager.bot()` returning a live
handle; `transport` is the raw outcome of the transport send. -/
def sendMessage (db : DbState) (authUserId : Nat) (authEmail : String)
    (reqConversationId : Nat) (reqContent : String) (botConnected : Bool)
    (freshMsgId : Nat) (transport : TgSendOutcome) (now : Nat)
    (faults : SendFaults) : SendMessageOutput :=
  -- Get conversation (a store error and a missing row both map to NotFound).
  match findConvById db.convs reqConversationId with
  | none =>
    { db := db, events := [], delivered := [],
      result := .err (.notFound "Conversation not found") }
  | some conversation =>
    -- Create message (in memory only at this point).
    let message := Message.fromUserMessage freshMsgId reqConversationId reqContent
    -- Get bot from bot manager.
    if !botConnected then
      { db := db, events := [], delivered := [],
        result := .err (.internal
          "Bot is not connected. Please configure bot token in settings.") }
    else
      let delivered := match transport with
        | .sent _ => [reqContent]
        | .failed _ => []
      match sendMessageToTelegramUser transport with
      | .success telegramMessageId =>
        let message := { message with telegramMessageId := some telegramMessageId }
        -- Store the message only after a successful transport send.
        if faults.msgCreateErr then
          { db := db, events := [], delivered := delivered,
            result := .err (.database "message create failed") }
        else
          let msgs := db.msgs ++ [message]
          let updatedConv := { conversation with lastMessageAt := some now,
                                                 unreadCount := 0 }
          if faults.convUpdateErr then
            { db := { db with msgs := msgs }, events := [], delivered := delivered,
              result := .err (.database "conversation update failed") }
          else
            let convs := updateConvById db.convs conversation.id updatedConv
            let events := [WsEvent.messageSent message.conversationId message.id
              message.content authUserId authEmail message.mediaType
              message.mediaUrl message.fileName message.fileSize message.mimeType
              message.duration]
            { db := { users := db.users, convs := convs, msgs := msgs },
              events := events, delivered := delivered, result := .ok message }
      | .userBlocked =>
        -- Mark the sender blocked, best-effort.
        let users :=
          if faults.userLookupErr then db.users
          else match findUserById db.users conversation.telegramUserId with
            | some user =>
              if faults.userUpdateErr then db.users
              else updateUserById db.users conversation.telegramUserId
                { user with isBlocked := true }
            | none => db.users
        let events := [WsEvent.error
          ("User " ++ toString conversation.telegramUserId ++
            " has blocked the bot. Message was not delivered.")
          "USER_BLOCKED"]
        { db := { db with users := users }, events := events,
          delivered := delivered,
          result := .err (.badRequest "User has blocked the bot") }
      | .error e =>
        { db := db, events := [], delivered := delivered,
          result := .err (.internal ("Failed to send Telegram message: " ++ e)) }

/-! ## Bot lifecycle manager (`BotManager` in telegram/bot_manager.rs) -/

/-- `BotStatus` in bot_manager.rs. -/
inductive BotStatus
  | disconnected
  | connecting
  | connected
  | error
deriving DecidableEq, Repr

/-- The mutable slots of `BotManager` (the task handle and the live bot handle
are abstracted to opaque ids). -/
structure BotManagerState where
  botHandle : Option Nat
  status : BotStatus
  bot : Option Nat
deriving DecidableEq, Repr

/-- `BotManager::stop` (bot_manager.rs lines 125-144): abort the task handle
if present, clear the bot handle, set status Disconnected, broadcast; always
returns `Ok(())`. -/
def BotManager.stop (_s : BotManagerState) : BotManagerState × List WsEvent :=
  (⟨none, .disconnected, none⟩, [WsEvent.botStatus "disconnected"])

/-! ## Conversation endpoints (api/handlers/conversations.rs) -/

/-- `assign_conversation` (lines 210-267): sets `user_id` and forces status to
Active on whatever conversation is found, then broadcasts. -/
def assignConversation (db : DbState) (id : Nat) (reqUserId : Nat)
    (authEmail : String) : DbState × List WsEvent × Option AppError :=
  match findConvById db.convs id with
  | none => (db, [], some (.notFound "Conversation not found"))
  | some conv =>
    let conv := { conv with userId := some reqUserId,
                            status := ConversationStatus.active }
    let convs := updateConvById db.convs id conv
    ({ db with convs := convs },
      [WsEvent.conversationAssigned conv.id reqUserId authEmail], none)

/-- `close_conversation` (lines 270-323): forces status to Closed. -/
def closeConversation (db : DbState) (id : Nat) :
    DbState × List WsEvent × Option AppError :=
  match findConvById db.convs id with
  | none => (db, [], some (.notFound "Conversation not found"))
  | some conv =>
    let conv := { conv with status := ConversationStatus.closed }
    let convs := updateConvById db.convs id conv
    ({ db with convs := convs }, [WsEvent.conversationClosed conv.id], none)

/-- Status-string parsing in `update_conversation_status` (lines 347-356). -/
def parseStatus : String → Option ConversationStatus
  | "waiting" => some .waiting
  | "active" => some .active
  | "closed" => some .closed
  | _ => none

/-- `update_conversation_status` (lines 331-405): sets the parsed status on
whatever conversation is found, with no transition guard. -/
def updateConversationStatus (db : DbState) (id : Nat) (reqStatus : String) :
    DbState × List WsEvent × Option AppError :=
  match parseStatus reqStatus with
  | none => (db, [], some (.badRequest
      "Invalid status. Must be 'waiting', 'active', or 'closed'"))
  | some newStatus =>
    match findConvById db.convs id with
    | none => (db, [], some (.notFound "Conversation not found"))
    | some conv =>
      let conv := { conv with status := newStatus }
      let convs := updateConvById db.convs id conv
      let event :=
        if reqStatus = "closed" then WsEvent.conversationClosed conv.id
        else WsEvent.conversationStatusChanged conv.id reqStatus conv.userId
      ({ db with convs := convs }, [event], none)

/-! ## New-conversation operator notification preview
(`send_new_conversation_notifications_to_users`, handlers.rs lines 479-550).
Rust strings are UTF-8 byte sequences; `first_message.len()` is the byte
length and `&first_message[..50]` panics when byte offset 50 is not a
character boundary.  A string is modelled as its byte list. -/

/-- Rust `str::is_char_boundary`: true at 0 and at the total length, and at
any index holding a non-continuation byte (a byte outside 0x80..0xBF). -/
def isCharBoundary (bytes : List Nat) (i : Nat) : Bool :=
  if i = 0 then true
  else
    match bytes.get? i with
    | none => i == bytes.length
    | some b => decide (b < 128) || decide (192 ≤ b)

/-- Rust byte-range slicing `&s[..i]`: `none` models the panic on an
out-of-bounds or non-boundary index. -/
def takeBytes (bytes : List Nat) (i : Nat) : Option (List Nat) :=
  if i ≤ bytes.length ∧ isCharBoundary bytes i then some (bytes.take i)
  else none

/-- UTF-8 bytes of the literal "..." appended by the preview. -/
def ellipsisBytes : List Nat := [46, 46, 46]

/-- The `message_preview` computation (handlers.rs lines 512-516): slice the
first 50 bytes and append "..." when the message is longer than 50 bytes;
`none` models the slicing panic. -/
def messagePreview (firstMessage : List Nat) : Option (List Nat) :=
  if firstMessage.length > 50 then
    (takeBytes firstMessage 50).map (fun p => p ++ ellipsisBytes)
  else
    some firstMessage

/-- UTF-8 encoding of one Unicode code point (scalar values only). -/
def utf8EncodeChar (c : Nat) : List Nat :=
  if c < 128 then [c]
  else if c < 2048 then [192 + c / 64, 128 + c % 64]
  else if c < 65536 then
    [224 + c / 4096, 128 + (c / 64) % 64, 128 + c % 64]
  else
    [240 + c / 262144, 128 + (c / 4096) % 64, 128 + (c / 64) % 64, 128 + c % 64]

/-- UTF-8 encoding of a sequence of code points. -/
def utf8Encode (codepoints : List Nat) : List Nat :=
  (codepoints.map utf8EncodeChar).flatten

/-- A concrete first message: "a" followed by 25 copies of the Cyrillic
letter U+044B; its UTF-8 form is 51 bytes and byte 50 is a continuation
byte. -/
def cyrillicFirstMessage : List Nat := 97 :: List.replicate 25 1099

/-! ## Store lemmas -/

lemma mem_updateConvById {l : List Conversation} {cid : Nat} {c' b : Conversation}
    (hb : b ∈ updateConvById l cid c') : b = c' ∨ b ∈ l := by
  simp only [updateConvById, List.mem_map] at hb
  obtain ⟨v, hv, hfv⟩ := hb
  by_cases h : (v.id == cid) = true
  · rw [if_pos h] at hfv
    exact Or.inl hfv.symm
  · rw [if_neg h] at hfv
    exact Or.inr (hfv ▸ hv)

lemma updateConvById_of_not_mem {l : List Conversation} {cid : Nat}
    {c' : Conversation} (h : ∀ x ∈ l, x.id ≠ cid) :
    updateConvById l cid c' = l := by
  induction l with
  | nil => rfl
  | cons v vs ih =>
    have hv : ¬((v.id == cid) = true) := by
      simpa using h v (List.mem_cons_self v vs)
    have ihv := ih (fun x hx => h x (List.mem_cons_of_mem v hx))
    simp only [updateConvById, List.map_cons] at ihv ⊢
    rw [if_neg hv, ihv]

lemma updateConvById_append_fresh {l : List Conversation} {c c' : Conversation}
    (hfresh : ∀ x ∈ l, x.id ≠ c.id) :
    updateConvById (l ++ [c]) c.id c' = l ++ [c'] := by
  have h1 : updateConvById l c.id c' = l := updateConvById_of_not_mem hfresh
  simp only [updateConvById, List.map_append] at h1 ⊢
  rw [h1]
  simp

lemma map_id_updateConvById {l : List Conversation} {cid : Nat}
    {c' : Conversation} (hid : c'.id = cid) :
    (updateConvById l cid c').map (fun c => c.id) = l.map (fun c => c.id) := by
  simp only [updateConvById]
  induction l with
  | nil => rfl
  | cons v vs ih =>
    simp only [List.map_cons, ih]
    by_cases h : (v.id == cid) = true
    · rw [if_pos h, hid]
      have : v.id = cid := by simpa using h
      rw [this]
    · rw [if_neg h]

lemma findUserById_update_self {users : List TelegramUser} {id : Int}
    {u u' : TelegramUser} (h : findUserById users id = some u) (hid : u'.id = id) :
    findUserById (updateUserById users id u') id = some u' := by
  induction users with
  | nil => simp [findUserById] at h
  | cons v vs ih =>
    by_cases hv : (v.id == id) = true
    · show List.find? _ (List.map _ (v :: vs)) = some u'
      rw [List.map_cons, if_pos hv]
      exact List.find?_cons_of_pos _ (show (u'.id == id) = true by simpa using hid)
    · have h' : findUserById vs id = some u := by
        have h0 : List.find? (fun x => x.id == id) (v :: vs) = some u := h
        rw [List.find?_cons_of_neg (p := fun x : TelegramUser => x.id == id)
          _ hv] at h0
        exact h0
      show List.find? _ (List.map _ (v :: vs)) = some u'
      rw [List.map_cons, if_neg hv,
        List.find?_cons_of_neg (p := fun x : TelegramUser => x.id == id) _ hv]
      exact ih h'

lemma findConvById_update_self {convs : List Conversation} {id : Nat}
    {c c' : Conversation} (h : findConvById convs id = some c) (hid : c'.id = id) :
    findConvById (updateConvById convs id c') id = some c' := by
  induction convs with
  | nil => simp [findConvById] at h
  | cons v vs ih =>
    by_cases hv : (v.id == id) = true
    · show List.find? _ (List.map _ (v :: vs)) = some c'
      rw [List.map_cons, if_pos hv]
      exact List.find?_cons_of_pos _ (show (c'.id == id) = true by simpa using hid)
    · have h' : findConvById vs id = some c := by
        have h0 : List.find? (fun x => x.id == id) (v :: vs) = some c := h
        rw [List.find?_cons_of_neg (p := fun x : Conversation => x.id == id)
          _ hv] at h0
        exact h0
      show List.find? _ (List.map _ (v :: vs)) = some c'
      rw [List.map_cons, if_neg hv,
        List.find?_cons_of_neg (p := fun x : Conversation => x.id == id) _ hv]
      exact ih h'

lemma findOpenConversation_update_bump {convs : List Conversation} {tuid : Int}
    {conv : Conversation} (h : findOpenConversation convs tuid = some conv)
    {c' : Conversation}
    (htuid : c'.telegramUserId = conv.telegramUserId)
    (hstatus : c'.status = conv.status) :
    findOpenConversation (updateConvById convs conv.id c') tuid = some c' := by
  have hp : (conv.telegramUserId == tuid && conv.isOpen) = true := by
    have h0 : List.find? (fun c => c.telegramUserId == tuid && c.isOpen) convs =
        some conv := h
    exact List.find?_some
      (p := fun c : Conversation => c.telegramUserId == tuid && c.isOpen) h0
  have hpc' : (c'.telegramUserId == tuid && c'.isOpen) = true := by
    rw [htuid]
    rw [show c'.isOpen = conv.isOpen from by
      simp [Conversation.isOpen, hstatus]]
    exact hp
  induction convs with
  | nil => simp [findOpenConversation] at h
  | cons v vs ih =>
    by_cases hv : ((fun c => c.telegramUserId == tuid && c.isOpen) v) = true
    · -- the head is the found conversation
      have hveq : v = conv := by
        have h0 : List.find? (fun c => c.telegramUserId == tuid && c.isOpen)
            (v :: vs) = some conv := h
        rw [List.find?_cons_of_pos (p := fun c : Conversation => c.telegramUserId == tuid && c.isOpen) _ hv] at h0
        exact Option.some.inj h0
      have hb : (v.id == conv.id) = true := by simp [hveq]
      show List.find? _ (List.map _ (v :: vs)) = some c'
      rw [List.map_cons, if_pos hb]
      exact List.find?_cons_of_pos _ hpc'
    · have h' : findOpenConversation vs tuid = some conv := by
        have h0 : List.find? (fun c => c.telegramUserId == tuid && c.isOpen)
            (v :: vs) = some conv := h
        rw [List.find?_cons_of_neg (p := fun c : Conversation => c.telegramUserId == tuid && c.isOpen) _ hv] at h0
        exact h0
      by_cases hvid : (v.id == conv.id) = true
      · show List.find? _ (List.map _ (v :: vs)) = some c'
        rw [List.map_cons, if_pos hvid]
        exact List.find?_cons_of_pos _ hpc'
      · show List.find? _ (List.map _ (v :: vs)) = some c'
        rw [List.map_cons, if_neg hvid, List.find?_cons_of_neg
          (p := fun c : Conversation => c.telegramUserId == tuid && c.isOpen) _ hv]
        exact ih h'

/-! ## The "at most one open conversation per sender" invariant -/

/-- Two conversation rows are compatible when they are not both open for the
same sender identity. -/
def ConvCompat (c1 c2 : Conversation) : Prop :=
  ¬(c1.isOpen = true ∧ c2.isOpen = true ∧ c1.telegramUserId = c2.telegramUserId)

instance (c1 c2 : Conversation) : Decidable (ConvCompat c1 c2) := by
  unfold ConvCompat
  infer_instance

/-- At most one conversation with status ∈ {waiting, active} per sender. -/
def OpenInvariant (convs : List Conversation) : Prop :=
  convs.Pairwise ConvCompat

instance (convs : List Conversation) : Decidable (OpenInvariant convs) := by
  unfold OpenInvariant
  infer_instance

/-- Well-formedness of the conversation store: distinct primary keys and the
open-conversation invariant. -/
def ConvListWf (convs : List Conversation) : Prop :=
  (convs.map (fun c => c.id)).Nodup ∧ OpenInvariant convs

instance (convs : List Conversation) : Decidable (ConvListWf convs) := by
  unfold ConvListWf
  infer_instance

lemma convCompat_of_left {v b c' : Conversation} (h : ConvCompat v b)
    (htuid : c'.telegramUserId = v.telegramUserId)
    (hopen : c'.isOpen = true → v.isOpen = true) : ConvCompat c' b := by
  rintro ⟨h1, h2, h3⟩
  exact h ⟨hopen h1, h2, by rw [← htuid]; exact h3⟩

lemma convCompat_of_right {v b c' : Conversation} (h : ConvCompat b v)
    (htuid : c'.telegramUserId = v.telegramUserId)
    (hopen : c'.isOpen = true → v.isOpen = true) : ConvCompat b c' := by
  rintro ⟨h1, h2, h3⟩
  exact h ⟨h1, hopen h2, by rw [h3, htuid]⟩

/-- Replacing a stored row by one with the same key, the same sender and
no-greater openness preserves store well-formedness. -/
lemma convListWf_update {l : List Conversation} {conv c' : Conversation}
    (hmem : conv ∈ l) (hid : c'.id = conv.id)
    (htuid : c'.telegramUserId = conv.telegramUserId)
    (hopen : c'.isOpen = true → conv.isOpen = true)
    (hwf : ConvListWf l) : ConvListWf (updateConvById l conv.id c') := by
  induction l with
  | nil => cases hmem
  | cons v vs ih =>
    obtain ⟨hnd, hpw⟩ := hwf
    rw [List.map_cons, List.nodup_cons] at hnd
    rw [OpenInvariant, List.pairwise_cons] at hpw
    rcases List.mem_cons.mp hmem with hveq | hmemvs
    · -- the head is the row being replaced
      subst hveq
      have htail : updateConvById vs conv.id c' = vs :=
        updateConvById_of_not_mem (fun x hx he => hnd.1 (by
          rw [← he]
          exact List.mem_map_of_mem (fun c => c.id) hx))
      have hstep : updateConvById (conv :: vs) conv.id c' = c' :: vs := by
        simp only [updateConvById, List.map_cons, beq_self_eq_true, if_true]
        have := htail
        simp only [updateConvById] at this
        rw [this]
      rw [hstep]
      constructor
      · rw [List.map_cons, List.nodup_cons, hid]
        exact hnd
      · rw [OpenInvariant, List.pairwise_cons]
        exact ⟨fun b hb => convCompat_of_left (hpw.1 b hb) htuid hopen, hpw.2⟩
    · -- the replaced row is in the tail
      have hvid : ¬((v.id == conv.id) = true) := by
        simp only [beq_iff_eq]
        intro he
        exact hnd.1 (he ▸ List.mem_map_of_mem (fun c => c.id) hmemvs)
      have hstep : updateConvById (v :: vs) conv.id c' =
          v :: updateConvById vs conv.id c' := by
        simp only [updateConvById, List.map_cons, if_neg hvid]
      rw [hstep]
      have hwf' := ih hmemvs ⟨hnd.2, hpw.2⟩
      constructor
      · rw [List.map_cons, List.nodup_cons]
        refine ⟨?_, hwf'.1⟩
        rw [map_id_updateConvById hid]
        exact hnd.1
      · rw [OpenInvariant, List.pairwise_cons]
        refine ⟨fun b hb => ?_, hwf'.2⟩
        rcases mem_updateConvById hb with rfl | hbmem
        · exact convCompat_of_right (hpw.1 conv hmemvs) htuid hopen
        · exact hpw.1 b hbmem

/-- Appending a conversation with a fresh key for a sender with no open
conversation preserves store well-formedness. -/
lemma convListWf_append_new {l : List Conversation} {c' : Conversation}
    (hwf : ConvListWf l) (hfresh : ∀ x ∈ l, x.id ≠ c'.id)
    (hnoopen : findOpenConversation l c'.telegramUserId = none) :
    ConvListWf (l ++ [c']) := by
  constructor
  · rw [List.map_append]
    refine List.Nodup.append hwf.1 (by simp) ?_
    intro a ha hb
    simp only [List.map_cons, List.map_nil, List.mem_singleton] at hb
    subst hb
    obtain ⟨x, hx, hxa⟩ := List.mem_map.mp ha
    exact hfresh x hx hxa
  · rw [OpenInvariant, List.pairwise_append]
    refine ⟨hwf.2, List.pairwise_singleton _ _, ?_⟩
    intro a ha b hb
    simp only [List.mem_singleton] at hb
    subst hb
    rintro ⟨haopen, hbopen, htu⟩
    have hnone := List.find?_eq_none.mp hnoopen a ha
    apply hnone
    rw [htu]
    simp [haopen]

/-- Whatever the store faults, the post-resolution stage either leaves the
conversation store as the resolver produced it (a failing message create or
conversation update) or bumps the resolved conversation in place. -/
lemma ingestWithConversation_convs (db : DbState) (msg : TgMessage)
    (tu : TelegramUser) (locale : LocaleData) (text : String)
    (mt mu fn : Option String) (fs : Option Int) (mm : Option String)
    (dur : Option Int) (mid now : Nat) (faults : IngestFaults)
    (conv : Conversation) (isNew : Bool) (convs : List Conversation) :
    (ingestWithConversation db msg tu locale text mt mu fn fs mm dur mid now
        faults conv isNew convs).db.convs = convs ∨
    (ingestWithConversation db msg tu locale text mt mu fn fs mm dur mid now
        faults conv isNew convs).db.convs =
      updateConvById convs conv.id
        { conv with lastMessageAt := some now,
                    unreadCount := conv.unreadCount + 1 } := by
  cases hm : faults.msgCreateErr with
  | true =>
    left
    cases mt <;> cases mu <;> simp [ingestWithConversation, hm]
  | false =>
    cases hcu : faults.convUpdateErr with
    | true =>
      left
      cases mt <;> cases mu <;> simp [ingestWithConversation, hm, hcu]
    | false =>
      right
      cases mt <;> cases mu <;> simp [ingestWithConversation, hm, hcu]

/-- As long as the conversation *lookup* does not fail, one ingestion run —
under arbitrary store faults otherwise — either leaves the conversation
store unchanged, bumps an existing open conversation of some sender, or
appends one fresh waiting conversation for a sender with no open one. -/
lemma processUserMessage_convs (db : DbState) (msg : TgMessage)
    (fetched : Option String) (fid mid now : Nat) (faults : IngestFaults)
    (hlf : faults.convLookupErr = false)
    (hfresh : ∀ c ∈ db.convs, c.id ≠ fid) :
    (processUserMessage db msg fetched fid mid now faults).db.convs = db.convs ∨
    (∃ tuid conv, findOpenConversation db.convs tuid = some conv ∧
      (processUserMessage db msg fetched fid mid now faults).db.convs =
        updateConvById db.convs conv.id
          { conv with lastMessageAt := some now,
                      unreadCount := conv.unreadCount + 1 }) ∨
    (∃ c' : Conversation, c'.id = fid ∧ c'.status = .waiting ∧
      findOpenConversation db.convs c'.telegramUserId = none ∧
      (processUserMessage db msg fetched fid mid now faults).db.convs =
        db.convs ++ [c']) := by
  cases hs : msg.sender with
  | none => left; simp [processUserMessage, hs]
  | some user =>
  cases he : extractContent msg with
  | emptyText => left; simp [processUserMessage, hs, he]
  | unsupported => left; simp [processUserMessage, hs, he]
  | noPhoto => left; simp [processUserMessage, hs, he]
  | content text mt mu fn fs mm dur =>
    -- the sender row resolved by the pipeline, in both lookup outcomes
    have main : ∀ (tu : TelegramUser) (users : List TelegramUser),
        (ingestConvPhase { db with users := users } msg tu
            (getLocale tu.countryCode) text mt mu fn fs mm dur fid mid now
            faults).db.convs = db.convs ∨
        (∃ tuid conv, findOpenConversation db.convs tuid = some conv ∧
          (ingestConvPhase { db with users := users } msg tu
              (getLocale tu.countryCode) text mt mu fn fs mm dur fid mid now
              faults).db.convs =
            updateConvById db.convs conv.id
              { conv with lastMessageAt := some now,
                          unreadCount := conv.unreadCount + 1 }) ∨
        (∃ c' : Conversation, c'.id = fid ∧ c'.status = .waiting ∧
          findOpenConversation db.convs c'.telegramUserId = none ∧
          (ingestConvPhase { db with users := users } msg tu
              (getLocale tu.countryCode) text mt mu fn fs mm dur fid mid now
              faults).db.convs = db.convs ++ [c']) := by
      intro tu users
      cases hc : findOpenConversation db.convs tu.id with
      | some conv =>
        have hred : (ingestConvPhase { db with users := users } msg tu
            (getLocale tu.countryCode) text mt mu fn fs mm dur fid mid now
            faults) =
            ingestWithConversation { db with users := users } msg tu
              (getLocale tu.countryCode) text mt mu fn fs mm dur mid now
              faults conv false db.convs := by
          simp [ingestConvPhase, resolveConversation, hlf, hc]
        rcases ingestWithConversation_convs { db with users := users } msg tu
          (getLocale tu.countryCode) text mt mu fn fs mm dur mid now faults
          conv false db.convs with hsame | hupd
        · left
          rw [hred, hsame]
        · right; left
          exact ⟨tu.id, conv, hc, by rw [hred, hupd]⟩
      | none =>
        cases hcc : faults.convCreateErr with
        | true =>
          left
          simp [ingestConvPhase, resolveConversation, hlf, hc, hcc]
        | false =>
          have hred : (ingestConvPhase { db with users := users } msg tu
              (getLocale tu.countryCode) text mt mu fn fs mm dur fid mid now
              faults) =
              ingestWithConversation { db with users := users } msg tu
                (getLocale tu.countryCode) text mt mu fn fs mm dur mid now
                faults (Conversation.new fid tu.id none .waiting (some now) 0)
                true
                (db.convs ++
                  [Conversation.new fid tu.id none .waiting (some now) 0]) := by
            simp [ingestConvPhase, resolveConversation, hlf, hc, hcc]
          rcases ingestWithConversation_convs { db with users := users } msg tu
            (getLocale tu.countryCode) text mt mu fn fs mm dur mid now faults
            (Conversation.new fid tu.id none .waiting (some now) 0) true
            (db.convs ++ [Conversation.new fid tu.id none .waiting (some now) 0])
            with hsame | hupd
          · right; right
            exact ⟨Conversation.new fid tu.id none .waiting (some now) 0,
              rfl, rfl, hc, by rw [hred, hsame]⟩
          · right; right
            refine ⟨{ Conversation.new fid tu.id none .waiting (some now) 0 with
              lastMessageAt := some now, unreadCount := 0 + 1 }, rfl, rfl, hc,
              ?_⟩
            rw [hred, hupd]
            exact updateConvById_append_fresh hfresh
    -- thread the user-resolution and blocked branches
    cases hul : faults.userLookupErr with
    | true =>
      cases huc : faults.userCreateErr with
      | true => left; simp [processUserMessage, hs, he, hul, huc]
      | false =>
        have := main (TelegramUser.new user.id user.username user.firstName
          user.lastName none (extractCountryCode user.languageCode) false)
        simp only [processUserMessage, hs, he, hul, huc] at *
        simpa [TelegramUser.new, findUserById] using this _
    | false =>
      cases hu : findUserById db.users user.id with
      | some tu =>
        cases hb : tu.isBlocked with
        | true => left; simp [processUserMessage, hs, he, hul, hu, hb]
        | false =>
          have := main tu (if tu.photoUrl.isNone then
            match fetched with
            | some url =>
              match findUserById db.users tu.id with
              | some stored => updateUserById db.users tu.id
                  { stored with photoUrl := some url }
              | none => db.users
            | none => db.users
            else db.users)
          simpa [processUserMessage, hs, he, hul, hu, hb] using this
      | none =>
        cases huc : faults.userCreateErr with
        | true => left; simp [processUserMessage, hs, he, hul, hu, huc]
        | false =>
          have := main (TelegramUser.new user.id user.username user.firstName
            user.lastName none (extractCountryCode user.languageCode) false)
          simp only [processUserMessage, hs, he, hul, huc] at *
          rw [hu]
          simpa [TelegramUser.new, findUserById] using this _

/-- One dispatch run either leaves the conversation store unchanged or resets
the target conversation's unread counter in place. -/
lemma sendMessage_convs (db : DbState) (auid : Nat) (email : String) (cid : Nat)
    (content : String) (bot : Bool) (mid : Nat) (transport : TgSendOutcome)
    (now : Nat) (faults : SendFaults) :
    (sendMessage db auid email cid content bot mid transport now faults).db.convs
        = db.convs ∨
    ∃ conv, findConvById db.convs cid = some conv ∧
      (sendMessage db auid email cid content bot mid transport now
          faults).db.convs =
        updateConvById db.convs conv.id
          { conv with lastMessageAt := some now, unreadCount := 0 } := by
  cases hc : findConvById db.convs cid with
  | none => left; simp [sendMessage, hc]
  | some conv =>
    cases bot with
    | false => left; simp [sendMessage, hc]
    | true =>
      cases transport with
      | sent tid =>
        cases hm : faults.msgCreateErr with
        | true => left; simp [sendMessage, hc, sendMessageToTelegramUser, hm]
        | false =>
          cases hcu : faults.convUpdateErr with
          | true => left; simp [sendMessage, hc, sendMessageToTelegramUser, hm, hcu]
          | false =>
            right
            exact ⟨conv, rfl, by
              simp [sendMessage, hc, sendMessageToTelegramUser, hm, hcu]⟩
      | failed e =>
        cases e with
        | api ae =>
          cases ae <;> (left; simp [sendMessage, hc, sendMessageToTelegramUser])
        | network s => left; simp [sendMessage, hc, sendMessageToTelegramUser]

/-- The closing endpoint either leaves the store unchanged or closes the
found conversation in place. -/
lemma closeConversation_convs (db : DbState) (cid : Nat) :
    (closeConversation db cid).1.convs = db.convs ∨
    ∃ conv, findConvById db.convs cid = some conv ∧
      (closeConversation db cid).1.convs =
        updateConvById db.convs cid
          { conv with status := ConversationStatus.closed } := by
  cases hc : findConvById db.convs cid with
  | none => left; simp [closeConversation, hc]
  | some conv => right; exact ⟨conv, rfl, by simp [closeConversation, hc]⟩

/-- The assignment endpoint either leaves the store unchanged or activates
the found conversation in place. -/
lemma assignConversation_convs (db : DbState) (cid uid : Nat) (email : String) :
    (assignConversation db cid uid email).1.convs = db.convs ∨
    ∃ conv, findConvById db.convs cid = some conv ∧
      (assignConversation db cid uid email).1.convs =
        updateConvById db.convs cid
          { conv with userId := some uid,
                      status := ConversationStatus.active } := by
  cases hc : findConvById db.convs cid with
  | none => left; simp [assignConversation, hc]
  | some conv => right; exact ⟨conv, rfl, by simp [assignConversation, hc]⟩

/-- The status endpoint either leaves the store unchanged or sets the parsed
status on the found conversation in place. -/
lemma updateConversationStatus_convs (db : DbState) (cid : Nat) (s : String) :
    (updateConversationStatus db cid s).1.convs = db.convs ∨
    ∃ conv newStatus, parseStatus s = some newStatus ∧
      findConvById db.convs cid = some conv ∧
      (updateConversationStatus db cid s).1.convs =
        updateConvById db.convs cid { conv with status := newStatus } := by
  cases hp : parseStatus s with
  | none => left; simp [updateConversationStatus, hp]
  | some newStatus =>
    cases hc : findConvById db.convs cid with
    | none => left; simp [updateConversationStatus, hp, hc]
    | some conv =>
      right
      exact ⟨conv, newStatus, rfl, rfl, by
        simp [updateConversationStatus, hp, hc]⟩

/-- One sequential step of the core operations: ingestion (with a fresh
conversation id, under arbitrary store faults except a failing conversation
lookup), dispatch (arbitrary store faults), close, and the assignment /
status-update endpoints guarded to target only non-closed conversations. -/
inductive CoreStep : DbState → DbState → Prop
  | ingest (db : DbState) (msg : TgMessage) (fetched : Option String)
      (fid mid now : Nat) (faults : IngestFaults)
      (hlf : faults.convLookupErr = false)
      (hfresh : ∀ c ∈ db.convs, c.id ≠ fid) :
      CoreStep db (processUserMessage db msg fetched fid mid now faults).db
  | dispatch (db : DbState) (auid : Nat) (email : String) (cid : Nat)
      (content : String) (bot : Bool) (mid : Nat) (transport : TgSendOutcome)
      (now : Nat) (faults : SendFaults) :
      CoreStep db
        (sendMessage db auid email cid content bot mid transport now faults).db
  | close (db : DbState) (cid : Nat) : CoreStep db (closeConversation db cid).1
  | assign (db : DbState) (cid uid : Nat) (email : String)
      (hguard : ∀ conv, findConvById db.convs cid = some conv →
        conv.status ≠ .closed) :
      CoreStep db (assignConversation db cid uid email).1
  | statusUpdate (db : DbState) (cid : Nat) (s : String)
      (hguard : ∀ conv, findConvById db.convs cid = some conv →
        conv.status ≠ .closed) :
      CoreStep db (updateConversationStatus db cid s).1

lemma convListWf_coreStep {db db' : DbState} (hwf : ConvListWf db.convs)
    (hstep : CoreStep db db') : ConvListWf db'.convs := by
  cases hstep with
  | ingest msg fetched fid mid now faults hlf hfresh =>
    rcases processUserMessage_convs db msg fetched fid mid now faults hlf
      hfresh with hsame | ⟨tuid, conv, hc, heq⟩ | ⟨c', hcid, hcw, hnone, heq⟩
    · rw [hsame]; exact hwf
    · rw [heq]
      exact convListWf_update (List.mem_of_find?_eq_some hc) rfl rfl
        (by intro h; simpa [Conversation.isOpen] using h) hwf
    · rw [heq]
      exact convListWf_append_new hwf
        (fun x hx => by rw [hcid]; exact hfresh x hx) hnone
  | dispatch auid email cid content bot mid transport now faults =>
    rcases sendMessage_convs db auid email cid content bot mid transport now
      faults with hsame | ⟨conv, hc, heq⟩
    · rw [hsame]; exact hwf
    · rw [heq]
      exact convListWf_update (List.mem_of_find?_eq_some hc) rfl rfl
        (by intro h; simpa [Conversation.isOpen] using h) hwf
  | close cid =>
    rcases closeConversation_convs db cid with hsame | ⟨conv, hc, heq⟩
    · rw [hsame]; exact hwf
    · have hcid : conv.id = cid := by
        simpa using List.find?_some
          (p := fun x : Conversation => x.id == cid) hc
      rw [heq, ← hcid]
      refine convListWf_update (List.mem_of_find?_eq_some hc) rfl rfl ?_ hwf
      intro hopen
      simp [Conversation.isOpen] at hopen
  | assign cid uid email hguard =>
    rcases assignConversation_convs db cid uid email with hsame | ⟨conv, hc, heq⟩
    · rw [hsame]; exact hwf
    · have hcid : conv.id = cid := by
        simpa using List.find?_some
          (p := fun x : Conversation => x.id == cid) hc
      rw [heq, ← hcid]
      refine convListWf_update (List.mem_of_find?_eq_some hc) rfl rfl ?_ hwf
      intro _
      have := hguard conv hc
      cases hst : conv.status with
      | waiting => simp [Conversation.isOpen, hst]
      | active => simp [Conversation.isOpen, hst]
      | closed => exact absurd hst this
  | statusUpdate cid s hguard =>
    rcases updateConversationStatus_convs db cid s
      with hsame | ⟨conv, newStatus, _, hc, heq⟩
    · rw [hsame]; exact hwf
    · have hcid : conv.id = cid := by
        simpa using List.find?_some
          (p := fun x : Conversation => x.id == cid) hc
      rw [heq, ← hcid]
      refine convListWf_update (List.mem_of_find?_eq_some hc) rfl rfl ?_ hwf
      intro _
      have := hguard conv hc
      cases hst : conv.status with
      | waiting => simp [Conversation.isOpen, hst]
      | active => simp [Conversation.isOpen, hst]
      | closed => exact absurd hst this

/-! ## Claims -/

/-- C8: `BotManager.stop()` is idempotent.  From any manager state a stop
call leaves status Disconnected with the live bot handle and the task handle
cleared (the source returns `Ok(())` unconditionally, so no error is
possible), and a second stop from the resulting Disconnected state produces
the very same state again. -/
theorem botManager_stop_idempotent (s : BotManagerState) :
    (BotManager.stop s).1.status = .disconnected ∧
    (BotManager.stop s).1.bot = none ∧
    (BotManager.stop s).1.botHandle = none ∧
    (BotManager.stop (BotManager.stop s).1).1 = (BotManager.stop s).1 ∧
    (BotManager.stop (BotManager.stop s).1).1.status = .disconnected :=
  ⟨rfl, rfl, rfl, rfl, rfl⟩

/-- C10: the new-conversation notification preview slices the first message's
first 50 bytes whenever it is longer than 50 bytes.  On "a" followed by 25
Cyrillic letters the message is 51 UTF-8 bytes long and byte offset 50 falls
inside a character, so the slice panics (modelled as `none`): the
notification step is not total over all message texts.  Boundary-respecting
inputs are truncated or passed through whole. -/
theorem notificationPreview_panics_on_nonboundary :
    (utf8Encode cyrillicFirstMessage).length = 51 ∧
    isCharBoundary (utf8Encode cyrillicFirstMessage) 50 = false ∧
    messagePreview (utf8Encode cyrillicFirstMessage) = none ∧
    messagePreview (List.replicate 50 97) = some (List.replicate 50 97) ∧
    messagePreview (List.replicate 60 97) =
      some (List.replicate 50 97 ++ ellipsisBytes) := by
  decide

/-- C2: when the transport send of an operator reply fails as
recipient-unreachable (bot blocked, user deactivated or chat not found), the
dispatch handler marks the sender identity blocked, broadcasts an `Error`
event with code "USER_BLOCKED", returns a BadRequest failure, and stores no
message (and touches no conversation). -/
theorem dispatch_userBlocked (db : DbState) (auid : Nat) (email : String)
    (cid : Nat) (content : String) (mid now : Nat) (e : TgApiError)
    (conv : Conversation) (user : TelegramUser)
    (hconv : findConvById db.convs cid = some conv)
    (hclass : e = .botBlocked ∨ e = .userDeactivated ∨ e = .chatNotFound)
    (huser : findUserById db.users conv.telegramUserId = some user) :
    (let out := sendMessage db auid email cid content true mid
        (.failed (.api e)) now noSendFaults
     out.result = .err (.badRequest "User has blocked the bot") ∧
     out.events = [WsEvent.error ("User " ++ toString conv.telegramUserId ++
       " has blocked the bot. Message was not delivered.") "USER_BLOCKED"] ∧
     findUserById out.db.users conv.telegramUserId =
       some { user with isBlocked := true } ∧
     out.db.msgs = db.msgs ∧
     out.db.convs = db.convs) := by
  have hid : ({ user with isBlocked := true } : TelegramUser).id =
      conv.telegramUserId := by
    simpa using List.find?_some
      (p := fun u : TelegramUser => u.id == conv.telegramUserId) huser
  have hupd := findUserById_update_self huser hid
  rcases hclass with rfl | rfl | rfl <;>
    simp [sendMessage, hconv, sendMessageToTelegramUser, noSendFaults, huser,
      hupd]

/-- Concrete store for the C2 witness: one sender (id 42, not blocked) with
one waiting conversation. -/
def c2Db : DbState :=
  ⟨[⟨42, some "alice", "Alice", none, none, none, false⟩],
   [⟨1, 42, none, .waiting, some 1000, 1⟩], []⟩

/-- C2 witness: the theorem instantiated on `c2Db` with a bot-blocked
transport failure. -/
theorem dispatch_userBlocked_witness :
    (let out := sendMessage c2Db 7 "op@example.com" 1 "hi" true 20
        (.failed (.api .botBlocked)) 5 noSendFaults
     out.result = .err (.badRequest "User has blocked the bot") ∧
     out.events = [WsEvent.error ("User " ++ toString (42 : Int) ++
       " has blocked the bot. Message was not delivered.") "USER_BLOCKED"] ∧
     findUserById out.db.users 42 =
       some ⟨42, some "alice", "Alice", none, none, none, true⟩ ∧
     out.db.msgs = c2Db.msgs ∧
     out.db.convs = c2Db.convs) := by
  exact dispatch_userBlocked c2Db 7 "op@example.com" 1 "hi" 20 5 .botBlocked
    ⟨1, 42, none, .waiting, some 1000, 1⟩
    ⟨42, some "alice", "Alice", none, none, none, false⟩
    rfl (Or.inl rfl) rfl

/-- C6: when the transport send of an operator reply succeeds, the stored and
returned message is operator-authored (from_user = true), read = true, and
carries the transport-assigned message id; the conversation's unread counter
is reset to 0 with last-activity set to now; and a `MessageSent` event is
broadcast. -/
theorem dispatch_success (db : DbState) (auid : Nat) (email : String)
    (cid : Nat) (content : String) (mid : Nat) (tid : Int) (now : Nat)
    (conv : Conversation)
    (hconv : findConvById db.convs cid = some conv) :
    (let out := sendMessage db auid email cid content true mid (.sent tid) now
        noSendFaults
     out.result = .ok { Message.fromUserMessage mid cid content with
       telegramMessageId := some tid } ∧
     (Message.fromUserMessage mid cid content).fromUser = true ∧
     (Message.fromUserMessage mid cid content).read = true ∧
     out.db.msgs = db.msgs ++ [{ Message.fromUserMessage mid cid content with
       telegramMessageId := some tid }] ∧
     findConvById out.db.convs cid =
       some { conv with lastMessageAt := some now, unreadCount := 0 } ∧
     out.events = [WsEvent.messageSent cid mid content auid email
       none none none none none none]) := by
  have hcid : conv.id = cid := by
    simpa using List.find?_some
      (p := fun x : Conversation => x.id == cid) hconv
  have hidc : ({ conv with lastMessageAt := some now, unreadCount := 0 } :
      Conversation).id = cid := by
    simpa using hcid
  have hupd := findConvById_update_self hconv hidc
  simp only [hcid] at hupd
  simp [sendMessage, hconv, sendMessageToTelegramUser, noSendFaults, hcid,
    hupd, Message.fromUserMessage]

/-- Concrete store for the C6 witness. -/
def c6Db : DbState :=
  ⟨[⟨42, none, "Alice", none, none, none, false⟩],
   [⟨1, 42, none, .waiting, some 1000, 1⟩], []⟩

/-- C6 witness: the theorem instantiated on `c6Db`. -/
theorem dispatch_success_witness :
    (let out := sendMessage c6Db 7 "op@example.com" 1 "Hi, how can I help?"
        true 20 (.sent 555) 2000 noSendFaults
     out.result = .ok { Message.fromUserMessage 20 1 "Hi, how can I help?" with
       telegramMessageId := some 555 } ∧
     (Message.fromUserMessage 20 1 "Hi, how can I help?").fromUser = true ∧
     (Message.fromUserMessage 20 1 "Hi, how can I help?").read = true ∧
     out.db.msgs = c6Db.msgs ++
       [{ Message.fromUserMessage 20 1 "Hi, how can I help?" with
         telegramMessageId := some 555 }] ∧
     findConvById out.db.convs 1 =
       some { (⟨1, 42, none, .waiting, some 1000, 1⟩ : Conversation) with
         lastMessageAt := some 2000, unreadCount := 0 } ∧
     out.events = [WsEvent.messageSent 1 20 "Hi, how can I help?" 7
       "op@example.com" none none none none none none]) := by
  exact dispatch_success c6Db 7 "op@example.com" 1 "Hi, how can I help?" 20
    555 2000 ⟨1, 42, none, .waiting, some 1000, 1⟩ rfl

/-- C9: the dispatch handler performs the transport send before any
persistence write, so when the send succeeds but the message-store create
fails, the handler returns a database error and emits no `MessageSent` event
even though the text was already delivered to the sender, and the delivered
message is never recorded (the store is unchanged). -/
theorem dispatch_sendBeforePersist (db : DbState) (auid : Nat) (email : String)
    (cid : Nat) (content : String) (mid : Nat) (tid : Int) (now : Nat)
    (conv : Conversation)
    (hconv : findConvById db.convs cid = some conv) :
    (let out := sendMessage db auid email cid content true mid (.sent tid) now
        ⟨true, false, false, false⟩
     out.result = .err (.database "message create failed") ∧
     out.delivered = [content] ∧
     out.events = [] ∧
     out.db = db) := by
  simp [sendMessage, hconv, sendMessageToTelegramUser]

/-- Concrete store for the C9 witness. -/
def c9Db : DbState :=
  ⟨[⟨42, none, "Alice", none, none, none, false⟩],
   [⟨1, 42, none, .active, some 1000, 1⟩], []⟩

/-- C9 witness: the theorem instantiated on `c9Db` with a failing
message-store create. -/
theorem dispatch_sendBeforePersist_witness :
    (let out := sendMessage c9Db 7 "op@example.com" 1 "hi" true 20 (.sent 555)
        2000 ⟨true, false, false, false⟩
     out.result = .err (.database "message create failed") ∧
     out.delivered = ["hi"] ∧
     out.events = [] ∧
     out.db = c9Db) := by
  exact dispatch_sendBeforePersist c9Db 7 "op@example.com" 1 "hi" 20 555 2000
    ⟨1, 42, none, .active, some 1000, 1⟩ rfl

/-- First inbound text update from sender 42 (used by the C4 trace). -/
def c4MsgA : TgMessage :=
  ⟨100, 42, some ⟨42, none, "Alice", none, none⟩, some "Hello", none,
    none, none, none, none, none, none, none⟩

/-- Second inbound text update from sender 42 (used by the C4 trace). -/
def c4MsgB : TgMessage :=
  ⟨101, 42, some ⟨42, none, "Alice", none, none⟩, some "Hello again", none,
    none, none, none, none, none, none, none⟩

/-- C4 counterexample: two sequential executions that each end with two open
conversations for sender 42.  First, fault-free: ingest opens conversation
1; close closes it; a second ingest opens conversation 2; the status-update
endpoint then sets the closed conversation 1 back to "active" with no
transition guard.  Second, a single completed ingestion run (`procErr =
none`) whose conversation lookup fails: the `Ok(None) | Err(_)` arm treats
the error as "no open conversation" and creates conversation 2 although
conversation 1 is already open for the same sender. -/
theorem conversation_invariant_counterexample :
    (let db1 := (processUserMessage ⟨[], [], []⟩ c4MsgA none 1 10 1000
        noFaults).db
     let db2 := (closeConversation db1 1).1
     let db3 := (processUserMessage db2 c4MsgB none 2 11 3000 noFaults).db
     let db4 := (updateConversationStatus db3 1 "active").1
     db4.convs = [⟨1, 42, none, .active, some 1000, 1⟩,
                  ⟨2, 42, none, .waiting, some 3000, 1⟩] ∧
     ¬ OpenInvariant db4.convs) ∧
    (let dbOpen : DbState :=
       ⟨[⟨42, none, "Alice", none, some "u", none, false⟩],
        [⟨1, 42, none, .waiting, some 1000, 1⟩], []⟩
     let run := processUserMessage dbOpen c4MsgA none 2 11 3000
       { noFaults with convLookupErr := true }
     ConvListWf dbOpen.convs ∧
     run.procErr = none ∧
     run.db.convs = [⟨1, 42, none, .waiting, some 1000, 1⟩,
                     ⟨2, 42, none, .waiting, some 3000, 1⟩] ∧
     ¬ OpenInvariant run.db.convs) := by
  decide

/-- C4 (amended): each sender identity has at most one conversation with
status ∈ {waiting, active} in every state whose conversation store is
well-formed that is reachable by sequential execution of ingestion (with a
fresh conversation id and a non-failing conversation lookup; the other store
calls may fail arbitrarily), dispatch (any faults), close, and assignment /
status-update restricted to non-closed target conversations.  The two
sequential escapes are exactly the ones excluded: the unguarded assignment /
status-update endpoints can reopen a closed conversation, and an ingestion
run whose conversation lookup fails silently creates a second open
conversation (`conversation_invariant_counterexample` exhibits both). -/
theorem conversation_invariant_preserved {db db' : DbState}
    (h0 : ConvListWf db.convs)
    (hsteps : Relation.ReflTransGen CoreStep db db') : ConvListWf db'.convs := by
  induction hsteps with
  | refl => exact h0
  | tail _ hbc ih => exact convListWf_coreStep ih hbc

/-- C4 witness: the preservation theorem applied to a two-step trace — a
fault-free ingest of `c4MsgA` into the empty store, then an ingest of
`c4MsgB` whose message-store create fails. -/
theorem conversation_invariant_preserved_witness :
    ConvListWf ((processUserMessage
      (processUserMessage ⟨[], [], []⟩ c4MsgA none 1 10 1000 noFaults).db
      c4MsgB none 2 11 3000 { noFaults with msgCreateErr := true }).db).convs :=
  conversation_invariant_preserved (by decide)
    (Relation.ReflTransGen.tail
      (Relation.ReflTransGen.single
        (CoreStep.ingest ⟨[], [], []⟩ c4MsgA none 1 10 1000 noFaults rfl
          (by decide)))
      (CoreStep.ingest
        (processUserMessage ⟨[], [], []⟩ c4MsgA none 1 10 1000 noFaults).db
        c4MsgB none 2 11 3000 { noFaults with msgCreateErr := true } rfl
        (by decide)))

/-- C5 counterexample: when the resolver's lookup errs while the sender has
an open conversation in the store, the error does not propagate — the
resolver silently creates and returns a fresh conversation marked
newly-created. -/
theorem resolver_lookup_failure_counterexample :
    (let convs : List Conversation := [⟨1, 42, none, .waiting, some 1000, 1⟩]
     findOpenConversation convs 42 = some ⟨1, 42, none, .waiting, some 1000, 1⟩ ∧
     resolveConversation convs 42 5 2000 true false =
       some (Conversation.new 5 42 none .waiting (some 2000) 0, true,
         convs ++ [Conversation.new 5 42 none .waiting (some 2000) 0])) := by
  decide

/-- C5 (amended): a failed conversation *create* propagates as fatal for the
update — the inbound update is dropped with no conversation created and no
message stored, no event is emitted, and the sender receives the apology
reply; a failed conversation *lookup*, however, is treated like "no open
conversation": the resolver silently creates and returns a new conversation
for any store state. -/
theorem resolver_failure_policy (db : DbState) (msg : TgMessage)
    (user : TgFrom) (tu : TelegramUser) (fetched : Option String)
    (fid mid now : Nat) (text : String) (mt mu fn : Option String)
    (fs : Option Int) (mm : Option String) (dur : Option Int)
    (hsender : msg.sender = some user)
    (hextract : extractContent msg = .content text mt mu fn fs mm dur)
    (huser : findUserById db.users user.id = some tu)
    (hnotblocked : tu.isBlocked = false)
    (hopen : findOpenConversation db.convs tu.id = none) :
    (resolveConversation db.convs tu.id fid now false true = none) ∧
    (let r := handleMessage db msg fetched fid mid now
        ⟨false, false, false, true, false, false⟩
     r.procErr = some "conversation create failed" ∧
     r.db.convs = db.convs ∧
     r.db.msgs = db.msgs ∧
     r.events = [] ∧
     r.replies =
       ["There was an error processing your message. Please try again later."]) ∧
    (∀ (convs : List Conversation) (tuid : Int) (fid' now' : Nat),
      resolveConversation convs tuid fid' now' true false =
        some (Conversation.new fid' tuid none .waiting (some now') 0, true,
          convs ++ [Conversation.new fid' tuid none .waiting (some now') 0])) := by
  refine ⟨?_, ?_, ?_⟩
  · simp [resolveConversation, hopen]
  · simp [handleMessage, processUserMessage, hsender, hextract, huser,
      hnotblocked, hopen, ingestConvPhase, resolveConversation]
  · intro convs tuid fid' now'
    simp [resolveConversation]

/-- Concrete store for the C5 witness: sender 42 known (with an avatar), no
open conversation. -/
def c5Db : DbState :=
  ⟨[⟨42, none, "Alice", none, some "url", none, false⟩], [], []⟩

/-- Concrete inbound text update for the C5 witness. -/
def c5Msg : TgMessage :=
  ⟨100, 42, some ⟨42, none, "Alice", none, none⟩, some "Hello", none,
    none, none, none, none, none, none, none⟩

/-- C5 witness: the failure-policy theorem instantiated on `c5Db`. -/
theorem resolver_failure_policy_witness :
    (resolveConversation c5Db.convs 42 1 1000 false true = none) ∧
    (let r := handleMessage c5Db c5Msg none 1 10 1000
        ⟨false, false, false, true, false, false⟩
     r.procErr = some "conversation create failed" ∧
     r.db.convs = c5Db.convs ∧
     r.db.msgs = c5Db.msgs ∧
     r.events = [] ∧
     r.replies =
       ["There was an error processing your message. Please try again later."]) ∧
    (∀ (convs : List Conversation) (tuid : Int) (fid' now' : Nat),
      resolveConversation convs tuid fid' now' true false =
        some (Conversation.new fid' tuid none .waiting (some now') 0, true,
          convs ++ [Conversation.new fid' tuid none .waiting (some now') 0])) := by
  exact resolver_failure_policy c5Db c5Msg ⟨42, none, "Alice", none, none⟩
    ⟨42, none, "Alice", none, some "url", none, false⟩ none 1 10 1000
    "Hello" none none none none none none rfl rfl rfl rfl rfl

/-- Store with sender 42 marked blocked (used by C3). -/
def c3Db : DbState :=
  ⟨[⟨42, none, "Alice", none, some "url", none, true⟩], [], []⟩

/-- An update with no recognized payload (e.g. a contact card), sent by
sender 42 (used by C3). -/
def c3MsgUnsupported : TgMessage :=
  ⟨100, 42, some ⟨42, none, "Alice", none, none⟩, none, none,
    none, none, none, none, none, none, none⟩

/-- A plain text update from sender 42 (used by C3). -/
def c3MsgText : TgMessage :=
  ⟨100, 42, some ⟨42, none, "Alice", none, none⟩, some "Hello", none,
    none, none, none, none, none, none, none⟩

/-- C3 counterexample: an unsupported update from a blocked sender is
answered with the fixed "not supported" reply — classification happens
before the blocked check — so the pipeline does not send only the localized
error reply for *every* update kind.  (No message, conversation change or
event is produced either way.) -/
theorem blocked_sender_counterexample :
    (let r := processUserMessage c3Db c3MsgUnsupported none 1 10 1000 noFaults
     (findUserById c3Db.users 42).map (fun u => u.isBlocked) = some true ∧
     r.replies = ["The message with this type is not supported yet."] ∧
     r.replies ≠ [enLocale.bot.error] ∧
     r.replies ≠ [ruLocale.bot.error] ∧
     r.events = [] ∧
     r.db = c3Db) := by
  decide

/-- C3 (amended): for every inbound update from a stored sender whose blocked
flag is true, no message is stored, no conversation is created or updated,
and no event is emitted; when the update classifies as a supported kind the
only reply is the fixed localized error text, while an unsupported update is
answered with the fixed "not supported" reply (sent before the blocked check
is reached). -/
theorem blocked_sender_ingest (db : DbState) (msg : TgMessage) (user : TgFrom)
    (tu : TelegramUser) (fetched : Option String) (fid mid now : Nat)
    (faults : IngestFaults)
    (hsender : msg.sender = some user)
    (hlookup : faults.userLookupErr = false)
    (huser : findUserById db.users user.id = some tu)
    (hblocked : tu.isBlocked = true) :
    (let r := processUserMessage db msg fetched fid mid now faults
     r.db.convs = db.convs ∧
     r.db.msgs = db.msgs ∧
     r.events = [] ∧
     r.opNotified = false ∧
     (∀ text mt mu fn fs mm dur,
       extractContent msg = .content text mt mu fn fs mm dur →
       r.replies = [(getLocale tu.countryCode).bot.error] ∧ r.procErr = none) ∧
     (extractContent msg = .unsupported →
       r.replies = ["The message with this type is not supported yet."])) := by
  cases he : extractContent msg with
  | content text mt mu fn fs mm dur =>
    simp [processUserMessage, hsender, he, hlookup, huser, hblocked]
  | emptyText => simp [processUserMessage, hsender, he]
  | unsupported => simp [processUserMessage, hsender, he]
  | noPhoto => simp [processUserMessage, hsender, he]

/-- C3 witness: the amended theorem instantiated on `c3Db` with a supported
text update. -/
theorem blocked_sender_ingest_witness :
    (let r := processUserMessage c3Db c3MsgText none 1 10 1000 noFaults
     r.db.convs = c3Db.convs ∧
     r.db.msgs = c3Db.msgs ∧
     r.events = [] ∧
     r.opNotified = false ∧
     (∀ text mt mu fn fs mm dur,
       extractContent c3MsgText = .content text mt mu fn fs mm dur →
       r.replies = [(getLocale (none : Option String)).bot.error] ∧
       r.procErr = none) ∧
     (extractContent c3MsgText = .unsupported →
       r.replies = ["The message with this type is not supported yet."])) := by
  exact blocked_sender_ingest c3Db c3MsgText ⟨42, none, "Alice", none, none⟩
    ⟨42, none, "Alice", none, some "url", none, true⟩ none 1 10 1000 noFaults
    rfl rfl rfl rfl

/-- A plain text update from sender 42 (used by C7). -/
def c7TextMsg : TgMessage :=
  ⟨100, 42, some ⟨42, none, "Alice", none, none⟩, some "Hello", none,
    none, none, none, none, none, none, none⟩

/-- A voice update from sender 42 carrying a caption (used by C7). -/
def c7VoiceMsg : TgMessage :=
  ⟨100, 42, some ⟨42, none, "Alice", none, none⟩, none, some "hi there",
    none, none, none, some ⟨"f1", 300, some "audio/ogg", 7⟩, none, none, none⟩

/-- C7 counterexample: a voice update with a caption present is extracted
with text "Voice message" — the caption is ignored for voice, so the
extracted text is not "the update's caption when present". -/
theorem extraction_voice_caption_counterexample :
    c7VoiceMsg.caption = some "hi there" ∧
    extractContent c7VoiceMsg =
      .content "Voice message" (some "voice") (some "f1") none (some 300)
        (some "audio/ogg") (some 7) ∧
    ("Voice message" : String) ≠ "hi there" := by
  decide

/-- C7 (amended): the uniform extraction yields, per media kind: the caption
when present (else a fixed per-kind placeholder — the empty string for photo,
"Document" / "Video" / "Audio" / "Animation" otherwise) for photo, document,
video, audio and animation; always "Voice message" for voice and
"Sticker " ++ emoji for sticker, both ignoring any caption; and for plain
text the message text itself with no media descriptor.  Media kind, locator
and the best-effort filename/size/mime/duration fields are carried exactly as
present in the update. -/
theorem extraction_characterization (msg : TgMessage) :
    (∀ ps p, msg.photo = some ps → ps.getLast? = some p →
      extractContent msg = .content (msg.caption.getD "") (some "photo")
        (some p.fileId) none (some p.fileSize) none none) ∧
    (∀ d, msg.photo = none → msg.document = some d →
      extractContent msg = .content (msg.caption.getD "Document")
        (some "document") (some d.fileId) d.fileName (some d.fileSize)
        d.mimeType none) ∧
    (∀ v, msg.photo = none → msg.document = none → msg.video = some v →
      extractContent msg = .content (msg.caption.getD "Video") (some "video")
        (some v.fileId) none (some v.fileSize) v.mimeType (some v.duration)) ∧
    (∀ v, msg.photo = none → msg.document = none → msg.video = none →
      msg.voice = some v →
      extractContent msg = .content "Voice message" (some "voice")
        (some v.fileId) none (some v.fileSize) v.mimeType (some v.duration)) ∧
    (∀ a, msg.photo = none → msg.document = none → msg.video = none →
      msg.voice = none → msg.audio = some a →
      extractContent msg = .content (msg.caption.getD "Audio") (some "audio")
        (some a.fileId) a.fileName (some a.fileSize) a.mimeType
        (some a.duration)) ∧
    (∀ st, msg.photo = none → msg.document = none → msg.video = none →
      msg.voice = none → msg.audio = none → msg.sticker = some st →
      extractContent msg = .content ("Sticker " ++ st.emoji.getD "")
        (some "sticker") (some st.fileId) none (some st.fileSize) none none) ∧
    (∀ an, msg.photo = none → msg.document = none → msg.video = none →
      msg.voice = none → msg.audio = none → msg.sticker = none →
      msg.animation = some an →
      extractContent msg = .content (msg.caption.getD "Animation")
        (some "animation") (some an.fileId) an.fileName (some an.fileSize)
        an.mimeType (some an.duration)) ∧
    (∀ t, msg.photo = none → msg.document = none → msg.video = none →
      msg.voice = none → msg.audio = none → msg.sticker = none →
      msg.animation = none → msg.text = some t → t ≠ "" →
      extractContent msg = .content t none none none none none none) := by
  refine ⟨?_, ?_, ?_, ?_, ?_, ?_, ?_, ?_⟩
  · intro ps p h1 h2
    simp [extractContent, h1, h2]
  · intro d h1 h2
    simp [extractContent, h1, h2]
  · intro v h1 h2 h3
    simp [extractContent, h1, h2, h3]
  · intro v h1 h2 h3 h4
    simp [extractContent, h1, h2, h3, h4]
  · intro a h1 h2 h3 h4 h5
    simp [extractContent, h1, h2, h3, h4, h5]
  · intro st h1 h2 h3 h4 h5 h6
    simp [extractContent, h1, h2, h3, h4, h5, h6]
  · intro an h1 h2 h3 h4 h5 h6 h7
    simp [extractContent, h1, h2, h3, h4, h5, h6, h7]
  · intro t h1 h2 h3 h4 h5 h6 h7 h8 h9
    simp [extractContent, h1, h2, h3, h4, h5, h6, h7, h8, h9]

/-- C7 witness: the characterization applied to the concrete voice update
with a caption, and to a plain text update. -/
theorem extraction_characterization_witness :
    extractContent c7VoiceMsg =
      .content "Voice message" (some "voice") (some "f1") none (some 300)
        (some "audio/ogg") (some 7) ∧
    extractContent c7TextMsg =
      .content "Hello" none none none none none none := by
  constructor
  · exact (extraction_characterization c7VoiceMsg).2.2.2.1
      ⟨"f1", 300, some "audio/ogg", 7⟩ rfl rfl rfl rfl
  · exact (extraction_characterization c7TextMsg).2.2.2.2.2.2.2
      "Hello" rfl rfl rfl rfl rfl rfl rfl rfl (by decide)

/-- C1: for a sender with no open conversation, one ingestion run makes the
resolver create exactly one conversation (status waiting, unread 0) marked
newly-created; after the run the store holds exactly one additional open
conversation, exactly one `ConversationCreated` event was broadcast, the
welcome reply was sent and the operator notification batch ran.  Any later
ingestion run made while the sender still has an open conversation reuses
it: it reports not-newly-created, broadcasts no `ConversationCreated`, sends
no welcome reply, runs no notification batch, and leaves the sender with the
same open conversation (same id, bumped activity) — so by induction the
first-contact side effects happen at most once per conversation lifetime, no
matter how many messages arrive while it stays open. -/
theorem ingest_creates_once (db : DbState) (msg : TgMessage) (user : TgFrom)
    (tu : TelegramUser) (fetched : Option String) (fid mid now : Nat)
    (text : String) (mt mu fn : Option String) (fs : Option Int)
    (mm : Option String) (dur : Option Int)
    (hsender : msg.sender = some user)
    (hextract : extractContent msg = .content text mt mu fn fs mm dur)
    (huser : findUserById db.users user.id = some tu ∨
      (findUserById db.users user.id = none ∧
        tu = TelegramUser.new user.id user.username user.firstName
          user.lastName none (extractCountryCode user.languageCode) false))
    (hnotblocked : tu.isBlocked = false)
    (hopen : findOpenConversation db.convs tu.id = none)
    (hfresh : ∀ c ∈ db.convs, c.id ≠ fid) :
    (resolveConversation db.convs tu.id fid now false false =
      some (Conversation.new fid tu.id none .waiting (some now) 0, true,
        db.convs ++ [Conversation.new fid tu.id none .waiting (some now) 0])) ∧
    (let r := processUserMessage db msg fetched fid mid now noFaults
     r.procErr = none ∧
     r.db.convs = db.convs ++ [⟨fid, tu.id, none, .waiting, some now, 1⟩] ∧
     r.events.countP (fun e => e.isConversationCreated) = 1 ∧
     r.events.head? = some (.conversationCreated fid tu.id tu.fullName) ∧
     r.replies = [(getLocale tu.countryCode).bot.welcome] ∧
     r.opNotified = true) ∧
    (∀ (db2 : DbState) (msg2 : TgMessage) (user2 : TgFrom)
       (tu2 : TelegramUser) (conv : Conversation) (fetched2 : Option String)
       (fid2 mid2 now2 : Nat) (text2 : String) (mt2 mu2 fn2 : Option String)
       (fs2 : Option Int) (mm2 : Option String) (dur2 : Option Int),
       msg2.sender = some user2 →
       extractContent msg2 = .content text2 mt2 mu2 fn2 fs2 mm2 dur2 →
       findUserById db2.users user2.id = some tu2 →
       tu2.isBlocked = false →
       findOpenConversation db2.convs tu2.id = some conv →
       (let r2 := processUserMessage db2 msg2 fetched2 fid2 mid2 now2 noFaults
        r2.procErr = none ∧
        (∀ e ∈ r2.events, e.isConversationCreated = false) ∧
        r2.replies = [] ∧
        r2.opNotified = false ∧
        findOpenConversation r2.db.convs tu2.id =
          some { conv with lastMessageAt := some now2,
                           unreadCount := conv.unreadCount + 1 })) := by
  refine ⟨?_, ?_, ?_⟩
  · simp [resolveConversation, hopen]
  · have happ := @updateConvById_append_fresh db.convs
      (Conversation.new fid tu.id none .waiting (some now) 0)
      { Conversation.new fid tu.id none .waiting (some now) 0 with
        lastMessageAt := some now,
        unreadCount :=
          (Conversation.new fid tu.id none .waiting (some now) 0).unreadCount
            + 1 } hfresh
    simp only [Conversation.new, zero_add] at happ
    rcases huser with huser | ⟨hnone, htu⟩
    · simp [processUserMessage, hsender, hextract, noFaults, huser,
        hnotblocked, ingestConvPhase, resolveConversation, hopen,
        ingestWithConversation, happ, WsEvent.isConversationCreated,
        Conversation.new]
    · subst htu
      simp only [TelegramUser.new] at hopen happ ⊢
      simp [processUserMessage, hsender, hextract, noFaults, hnone,
        ingestConvPhase, resolveConversation, hopen, ingestWithConversation,
        happ, WsEvent.isConversationCreated, Conversation.new,
        TelegramUser.new]
  · intro db2 msg2 user2 tu2 conv fetched2 fid2 mid2 now2 text2 mt2 mu2 fn2
      fs2 mm2 dur2 hsender2 hextract2 huser2 hnotblocked2 hopen2
    have hbump := @findOpenConversation_update_bump db2.convs tu2.id conv
      hopen2
      { conv with lastMessageAt := some now2,
                  unreadCount := conv.unreadCount + 1 } rfl rfl
    simp [processUserMessage, hsender2, hextract2, noFaults, huser2,
      hnotblocked2, ingestConvPhase, resolveConversation, hopen2,
      ingestWithConversation, hbump, WsEvent.isConversationCreated]

/-- Sender row for the C1 witness. -/
def c1User : TelegramUser :=
  ⟨42, some "alice", "Alice", none, none, some "RU", false⟩

/-- Store for the C1 witness: sender 42 known, no conversations. -/
def c1Db : DbState := ⟨[c1User], [], []⟩

/-- Inbound "Hello" text update from sender 42 for the C1 witness. -/
def c1Msg : TgMessage :=
  ⟨100, 42, some ⟨42, some "alice", "Alice", none, some "ru"⟩, some "Hello",
    none, none, none, none, none, none, none, none⟩

/-- C1 witness: the theorem instantiated on `c1Db` and `c1Msg`. -/
theorem ingest_creates_once_witness :
    (resolveConversation c1Db.convs c1User.id 1 1000 false false =
      some (Conversation.new 1 c1User.id none .waiting (some 1000) 0, true,
        c1Db.convs ++
          [Conversation.new 1 c1User.id none .waiting (some 1000) 0])) ∧
    (let r := processUserMessage c1Db c1Msg none 1 10 1000 noFaults
     r.procErr = none ∧
     r.db.convs = c1Db.convs ++
       [⟨1, c1User.id, none, .waiting, some 1000, 1⟩] ∧
     r.events.countP (fun e => e.isConversationCreated) = 1 ∧
     r.events.head? =
       some (.conversationCreated 1 c1User.id c1User.fullName) ∧
     r.replies = [(getLocale c1User.countryCode).bot.welcome] ∧
     r.opNotified = true) ∧
    (∀ (db2 : DbState) (msg2 : TgMessage) (user2 : TgFrom)
       (tu2 : TelegramUser) (conv : Conversation) (fetched2 : Option String)
       (fid2 mid2 now2 : Nat) (text2 : String) (mt2 mu2 fn2 : Option String)
       (fs2 : Option Int) (mm2 : Option String) (dur2 : Option Int),
       msg2.sender = some user2 →
       extractContent msg2 = .content text2 mt2 mu2 fn2 fs2 mm2 dur2 →
       findUserById db2.users user2.id = some tu2 →
       tu2.isBlocked = false →
       findOpenConversation db2.convs tu2.id = some conv →
       (let r2 := processUserMessage db2 msg2 fetched2 fid2 mid2 now2 noFaults
        r2.procErr = none ∧
        (∀ e ∈ r2.events, e.isConversationCreated = false) ∧
        r2.replies = [] ∧
        r2.opNotified = false ∧
        findOpenConversation r2.db.convs tu2.id =
          some { conv with lastMessageAt := some now2,
                           unreadCount := conv.unreadCount + 1 })) := by
  exact ingest_creates_once c1Db c1Msg
    ⟨42, some "alice", "Alice", none, some "ru"⟩ c1User none 1 10 1000
    "Hello" none none none none none none rfl rfl (Or.inl rfl) rfl rfl
    (by decide)

end Flashback
